import Mathlib

/-!
Shallow embedding of the CRUD service layer of the `ts-tro` repository.

Source files embedded:
* `src/services/User/user.service.ts` — class `UserService` with `create`
  (User resource) and `findOne` / `findAll` / `update` / `delete`
  (copy-pasted from the Subscription Plan service, operating on
  SubscriptionPlan types and messages).
* `src/services/User/model/user.model.ts` — class `Users` with the two
  stubbed static transforms `generate_hashed_password` and `password`.

External collaborators (the generic `DatabaseService`, the yup schema
validators for SubscriptionPlan, the `ErrorGenerator` and the error
classifiers `ConflictError` / `NotFoundError` / `BadRequestError` /
`ParseError`) are not part of the given sources; they are modelled from
the specification and passed to the service methods as explicit oracle
parameters, so every theorem quantifies over their behaviour.

Async methods become pure functions; a `try { ... } catch (e) { ...;
ParseError(e, fallback); }` block becomes an `Except Thrown` body whose
error is reclassified by `ParseError`; `throw` after the try block
becomes the `Except.error` of the final classification.
-/

/-- Modelled from the spec: the kinds of structured error messages the
Error Generator can produce (spec section 4.1). -/
inductive ErrKind where
  | Required
  | MiniLength
  | MaxLength
  | MinValue
  | MaxValue
  | Duplicate
  | NotFound
  | UnableToSave
  | UnableToDelete
deriving DecidableEq

/-- Modelled from the spec: the structured error-message payload produced
by the Error Generator, carrying the resource name it was generated for
(spec section 3, "Error payload"). -/
structure ErrMsg where
  resource : String
  kind : ErrKind
deriving DecidableEq

/-- Modelled from the spec: `ErrorGenerator.Duplicate(resource)`. -/
def ErrorGenerator.Duplicate (resource : String) : ErrMsg :=
  ⟨resource, ErrKind.Duplicate⟩

/-- Modelled from the spec: `ErrorGenerator.NotFound(resource)`. -/
def ErrorGenerator.NotFound (resource : String) : ErrMsg :=
  ⟨resource, ErrKind.NotFound⟩

/-- Modelled from the spec: `ErrorGenerator.UnableSave(resource)` (the
call-site name in `user.service.ts`; the spec lists it as UnableToSave). -/
def ErrorGenerator.UnableSave (resource : String) : ErrMsg :=
  ⟨resource, ErrKind.UnableToSave⟩

/-- Modelled from the spec: `ErrorGenerator.UnableToDelete(resource)`. -/
def ErrorGenerator.UnableToDelete (resource : String) : ErrMsg :=
  ⟨resource, ErrKind.UnableToDelete⟩

/-- Modelled from the spec: a classified (HTTP-style) error as produced by
the error classifier (spec section 4.2): `ConflictError`, `NotFoundError`,
`BadRequestError` wrap a message; `Parsed` is the generic classified error
`ParseError` wraps an unclassified failure into. -/
inductive ServiceError where
  | Conflict (msg : ErrMsg)
  | NotFound (msg : ErrMsg)
  | BadRequest (msg : ErrMsg)
  | Parsed (msg : ErrMsg)
deriving DecidableEq

/-- The resource name carried by a classified error's message. -/
def ServiceError.resource : ServiceError → String
  | .Conflict m => m.resource
  | .NotFound m => m.resource
  | .BadRequest m => m.resource
  | .Parsed m => m.resource

/-- A failure raised inside a service method's try block: either an
already classified error (thrown by the method itself) or an unclassified
schema-validation failure carrying field-level messages. -/
inductive Thrown where
  | classified (e : ServiceError)
  | validation (errs : List String)

/-- Modelled from the spec: `ParseError(caught, fallbackMsg)` (spec
section 4.2) — rethrows a classified error unchanged, otherwise wraps the
fallback message into a generic classified error. -/
def ParseError (e : Thrown) (fallback : ErrMsg) : ServiceError :=
  match e with
  | .classified err => err
  | .validation _ => .Parsed fallback

/-- Embedding of `try { body } catch (e) { logger.error(e); ParseError(e,
fallback); }` followed by the code after the try block (`finish`), which
sees the try body's result when no exception escaped. -/
def catchReclassify {α β : Type} (body : Except Thrown α) (fallback : ErrMsg)
    (finish : α → Except ServiceError β) : Except ServiceError β :=
  match body with
  | .error e => .error (ParseError e fallback)
  | .ok a => finish a

/-- `SubscriptionPlan` record: all properties optional, used both as
entity and, partially populated, as a database filter or patch. -/
structure SubscriptionPlan where
  id : Option String := none
  name : Option String := none
  slug : Option String := none
deriving DecidableEq

/-- `SubscriptionPlanFilter`: `{ id?, slug?, limit?, skip? }`. -/
structure SubscriptionPlanFilter where
  id : Option String := none
  slug : Option String := none
  limit : Option Nat := none
  skip : Option Nat := none
deriving DecidableEq

/-- `SubscriptionPlanUpdatePayload`: the update method reads `payload.name`. -/
structure SubscriptionPlanUpdatePayload where
  name : String
deriving DecidableEq

/-- Pagination metadata of a findAll response. -/
structure PageInfo where
  total : Nat
  limit : Nat
  skip : Nat
  has_more : Bool
deriving DecidableEq

/-- `SubscriptionPlanResponse`: `{ edges, page_info }`. -/
structure SubscriptionPlanResponse where
  edges : List SubscriptionPlan
  page_info : PageInfo
deriving DecidableEq

/-- `UpdateSubscriptionPlanResponse`: `{ modified, edges }`. -/
structure UpdateSubscriptionPlanResponse where
  modified : Nat
  edges : List SubscriptionPlan
deriving DecidableEq

/-- `DeleteSubscriptionPlanResponse`: `{ modified, edges }`. -/
structure DeleteSubscriptionPlanResponse where
  modified : Nat
  edges : List SubscriptionPlan
deriving DecidableEq

/-- `UserInputPayload`: the fields of the create payload the service
reads (`email`, `raw_password`) plus `name`. -/
structure UserInputPayload where
  name : String
  email : String
  raw_password : String
deriving DecidableEq

/-- `UserFilter`: the create method queries the database by `{ email }`. -/
structure UserFilter where
  id : Option String := none
  email : Option String := none
deriving DecidableEq

/-- The `Users` model of `user.model.ts`: all properties optional,
assigned by shallow copy from a payload. Also used as the `User` entity
type returned by the database. -/
structure Users where
  id : Option String := none
  name : Option String := none
  email : Option String := none
  hashed_password : Option String := none
deriving DecidableEq

/-- `Users.generate_hashed_password(raw_password)` of `user.model.ts`:
the stub returns the raw password with a `!` prepended
(template literal `!$\x7braw_password\x7d`). -/
def Users.generate_hashed_password (raw_password : String) : String :=
  "!" ++ raw_password

/-- `Users.password(hashed_password)` of `user.model.ts`: the stub
returns `hashed_password.slice(0, hashed_password.length)`. -/
def Users.password (hashed_password : String) : String :=
  String.mk (hashed_password.data.take hashed_password.data.length)

/-- Replace the first occurrence of character `a` by `b` — the behaviour
of JavaScript `String.replace` with a plain one-character pattern. -/
def replaceFirstChar : List Char → Char → Char → List Char
  | [], _, _ => []
  | c :: cs, a, b => if c = a then b :: cs else c :: replaceFirstChar cs a b

/-- The slug computed in `update`: `payload.name.toLowerCase().replace(' ', '-')`
— lowercase, then only the first space replaced by a hyphen. -/
def slugOf (name : String) : String :=
  String.mk (replaceFirstChar name.toLower.data ' ' '-')

/-- Oracle view of the external collaborators used by the Subscription
Plan flavoured methods: the yup filter schema (validating a possibly
absent filter), the yup update schema (validating the merged
payload+filter object), and the generic `DatabaseService` operations
(spec section 6). A validator returns `none` on success and the collected
field-level messages on failure (`abortEarly: false`). -/
structure SPDeps where
  validateFilter : Option SubscriptionPlanFilter → Option (List String)
  validateUpdate : SubscriptionPlanUpdatePayload → SubscriptionPlanFilter →
    Option (List String)
  dbFindOne : SubscriptionPlanFilter → Option SubscriptionPlan
  dbFindAll : SubscriptionPlan → Nat → Nat → List SubscriptionPlan × Nat
  dbUpdate : SubscriptionPlan → SubscriptionPlan → List SubscriptionPlan × Nat
  dbDelete : SubscriptionPlan → List SubscriptionPlan × Nat

/-- Oracle view of the external collaborators used by `create`: the yup
create schema for User and the `DatabaseService` operations it calls. -/
structure UserDeps where
  validateCreate : UserInputPayload → Option (List String)
  dbFindOneUser : UserFilter → Option Users
  dbCreateUser : Users → Users

/-- The `Users` model instance `create` passes to `dbService.create`:
`new Users({ ...payload, hashed_password })` with
`hashed_password = Users.generate_hashed_password(payload.raw_password)`. -/
def UserService.createModel (payload : UserInputPayload) : Users :=
  { id := none
    name := some payload.name
    email := some payload.email
    hashed_password :=
      some (Users.generate_hashed_password payload.raw_password) }

/-- Try body of `UserService.create`: validate the payload, query for an
existing record with the payload's email (Conflict Duplicate "User" when
found), hash the password and insert the model. -/
def UserService.createBody (ud : UserDeps) (payload : UserInputPayload) :
    Except Thrown Users :=
  match ud.validateCreate payload with
  | some errs => .error (.validation errs)
  | none =>
    match ud.dbFindOneUser { email := some payload.email } with
    | some _ =>
      .error (.classified (.Conflict (ErrorGenerator.Duplicate "User")))
    | none => .ok (ud.dbCreateUser (UserService.createModel payload))

/-- `UserService.create(payload)`: try body, catch reclassifying with the
`Duplicate "User"` fallback, then return the result when `result?.id` is
non-empty, else throw `BadRequestError(UnableSave "User")`. -/
def UserService.create (ud : UserDeps) (payload : UserInputPayload) :
    Except ServiceError Users :=
  catchReclassify (UserService.createBody ud payload)
    (ErrorGenerator.Duplicate "User") fun result =>
    match result.id with
    | some i =>
      if i ≠ "" then .ok result
      else .error (.BadRequest (ErrorGenerator.UnableSave "User"))
    | none => .error (.BadRequest (ErrorGenerator.UnableSave "User"))

/-- Try body of `UserService.findOne`: validate the filter, then query by
id only when it is present; `edge` stays unset otherwise. -/
def UserService.findOneBody (spd : SPDeps) (wh : SubscriptionPlanFilter) :
    Except Thrown (Option SubscriptionPlan) :=
  match spd.validateFilter (some wh) with
  | some errs => .error (.validation errs)
  | none =>
    match wh.id with
    | some i => .ok (spd.dbFindOne { id := some i })
    | none => .ok none

/-- `UserService.findOne(where)`: try body, catch reclassifying with the
`NotFound "Subscription Plan"` fallback, then return the loaded edge when
non-empty, else throw `NotFoundError(NotFound "Subscription Plan")`. -/
def UserService.findOne (spd : SPDeps) (wh : SubscriptionPlanFilter) :
    Except ServiceError SubscriptionPlan :=
  catchReclassify (UserService.findOneBody spd wh)
    (ErrorGenerator.NotFound "Subscription Plan") fun edge =>
    match edge with
    | some r => .ok r
    | none => .error (.NotFound (ErrorGenerator.NotFound "Subscription Plan"))

/-- Try body of `UserService.findAll`: validate the (optional) filter,
then branch on which of `id`, `limit`, `skip` are present. Returns the
possibly-unset `[edges, count]` pair together with the final values of
`recordLimit` and `recordSkip` (initialised to 10 and 0). -/
def UserService.findAllBody (spd : SPDeps)
    (wh : Option SubscriptionPlanFilter) :
    Except Thrown (Option (List SubscriptionPlan × Nat) × Nat × Nat) :=
  match spd.validateFilter wh with
  | some errs => .error (.validation errs)
  | none =>
    match wh with
    | some w =>
      match w.id, w.limit, w.skip with
      | some i, some l, some s =>
        .ok (some (spd.dbFindAll { id := some i } l s), l, s)
      | none, some l, some s =>
        .ok (some (spd.dbFindAll {} l s), l, s)
      | some i, _, _ =>
        .ok (some (spd.dbFindAll { id := some i } 10 0), 10, 0)
      | none, _, _ => .ok (none, 10, 0)
    | none => .ok (some (spd.dbFindAll {} 10 0), 10, 0)

/-- Code after the try block of `UserService.findAll`: build
`{ edges, page_info }` when `edges` is non-empty
(`has_more = count > recordLimit + recordSkip`), else throw
`NotFoundError(NotFound "Subscription Plan")`. -/
def UserService.findAllFinish
    (res : Option (List SubscriptionPlan × Nat) × Nat × Nat) :
    Except ServiceError SubscriptionPlanResponse :=
  match res with
  | (some (edges, count), recordLimit, recordSkip) =>
    if edges ≠ [] then
      .ok { edges := edges
            page_info :=
              { total := count
                limit := recordLimit
                skip := recordSkip
                has_more := decide (count > recordLimit + recordSkip) } }
    else .error (.NotFound (ErrorGenerator.NotFound "Subscription Plan"))
  | (none, _, _) =>
    .error (.NotFound (ErrorGenerator.NotFound "Subscription Plan"))

/-- `UserService.findAll(where?)`: try body, catch reclassifying with the
`NotFound "Subscription Plan"` fallback, then the response building of
`UserService.findAllFinish`. -/
def UserService.findAll (spd : SPDeps)
    (wh : Option SubscriptionPlanFilter) :
    Except ServiceError SubscriptionPlanResponse :=
  catchReclassify (UserService.findAllBody spd wh)
    (ErrorGenerator.NotFound "Subscription Plan")
    UserService.findAllFinish

/-- Try body of `UserService.update`: validate the merged payload+filter,
and when `where.id` is present compute the slug from `payload.name`,
check for an existing record with that slug whose id differs (Conflict
Duplicate "Subscription Plan"), and apply the update. `[edges, modified]`
stays unset when `where.id` is absent. -/
def UserService.updateBody (spd : SPDeps)
    (payload : SubscriptionPlanUpdatePayload)
    (wh : SubscriptionPlanFilter) :
    Except Thrown (Option (List SubscriptionPlan × Nat)) :=
  match spd.validateUpdate payload wh with
  | some errs => .error (.validation errs)
  | none =>
    match wh.id with
    | some i =>
      match spd.dbFindOne { slug := some (slugOf payload.name) } with
      | some r =>
        if r.id ≠ some i then
          .error (.classified
            (.Conflict (ErrorGenerator.Duplicate "Subscription Plan")))
        else
          .ok (some (spd.dbUpdate
            { name := some payload.name, slug := some (slugOf payload.name) }
            { id := some i }))
      | none =>
        .ok (some (spd.dbUpdate
          { name := some payload.name, slug := some (slugOf payload.name) }
          { id := some i }))
    | none => .ok none

/-- `UserService.update(payload, where)`: try body, catch reclassifying
with the `Duplicate "Subscription Plan"` fallback, then return
`{ modified, edges }` when `modified > 0`, else throw
`NotFoundError(NotFound "Subscription Plan")`. -/
def UserService.update (spd : SPDeps)
    (payload : SubscriptionPlanUpdatePayload)
    (wh : SubscriptionPlanFilter) :
    Except ServiceError UpdateSubscriptionPlanResponse :=
  catchReclassify (UserService.updateBody spd payload wh)
    (ErrorGenerator.Duplicate "Subscription Plan") fun res =>
    match res with
    | some (edges, modified) =>
      if modified > 0 then .ok { modified := modified, edges := edges }
      else .error (.NotFound (ErrorGenerator.NotFound "Subscription Plan"))
    | none =>
      .error (.NotFound (ErrorGenerator.NotFound "Subscription Plan"))

/-- Try body of `UserService.delete`: validate the filter, then delete by
id when it is present; `[edges, modified]` stays unset otherwise. -/
def UserService.deleteBody (spd : SPDeps) (wh : SubscriptionPlanFilter) :
    Except Thrown (Option (List SubscriptionPlan × Nat)) :=
  match spd.validateFilter (some wh) with
  | some errs => .error (.validation errs)
  | none =>
    match wh.id with
    | some i => .ok (some (spd.dbDelete { id := some i }))
    | none => .ok none

/-- `UserService.delete(where)`: try body, catch reclassifying with the
`UnableToDelete "Subscription Plan"` fallback, then return
`{ modified, edges }` when `modified > 0`, else throw
`NotFoundError(NotFound "Subscription Plan")`. -/
def UserService.delete (spd : SPDeps) (wh : SubscriptionPlanFilter) :
    Except ServiceError DeleteSubscriptionPlanResponse :=
  catchReclassify (UserService.deleteBody spd wh)
    (ErrorGenerator.UnableToDelete "Subscription Plan") fun res =>
    match res with
    | some (edges, modified) =>
      if modified > 0 then .ok { modified := modified, edges := edges }
      else .error (.NotFound (ErrorGenerator.NotFound "Subscription Plan"))
    | none =>
      .error (.NotFound (ErrorGenerator.NotFound "Subscription Plan"))

/-- A concrete Subscription Plan record used in witnesses. -/
def samplePlan : SubscriptionPlan :=
  { id := some "p1", name := some "Pro Plan", slug := some "pro-plan" }

/-- Concrete oracles for witnesses: validation always passes, `findOne`
finds nothing, the bulk operations return one record. -/
def sampleSPDeps : SPDeps :=
  { validateFilter := fun _ => none
    validateUpdate := fun _ _ => none
    dbFindOne := fun _ => none
    dbFindAll := fun _ _ _ => ([samplePlan], 1)
    dbUpdate := fun _ _ => ([samplePlan], 1)
    dbDelete := fun _ => ([samplePlan], 1) }

/-- Concrete oracles for witnesses: bulk operations report zero modified
rows. -/
def sampleSPDepsZero : SPDeps :=
  { sampleSPDeps with
    dbUpdate := fun _ _ => ([], 0)
    dbDelete := fun _ => ([], 0) }

/-- A concrete user payload used in witnesses, from the spec's scenario. -/
def samplePayload : UserInputPayload :=
  { name := "Ann Lee", email := "ann@ex.com", raw_password := "secret1" }

/-- Concrete oracles for witnesses: validation passes, no duplicate
email, the database assigns id `"u1"` on insert. -/
def sampleUserDeps : UserDeps :=
  { validateCreate := fun _ => none
    dbFindOneUser := fun _ => none
    dbCreateUser := fun u => { u with id := some "u1" } }

/-- Concrete oracles for witnesses: the duplicate-email query finds an
existing user. -/
def sampleUserDepsDup : UserDeps :=
  { sampleUserDeps with
    dbFindOneUser := fun _ =>
      some { id := some "u0", email := some "ann@ex.com" } }

/-- The stub `Users.password` returns its argument unchanged:
`slice(0, length)` is the whole string. -/
theorem users_password_eq_id (s : String) : Users.password s = s := by
  cases s with
  | mk data => simp [Users.password]

/-- The stub `generate_hashed_password` prepends one character, so its
output is one character longer than, and never equal to, its input. -/
theorem generate_hashed_password_ne (p : String) :
    Users.generate_hashed_password p ≠ p := by
  intro h
  have hlen := congrArg String.length h
  rw [Users.generate_hashed_password, String.length_append] at hlen
  have hone : ("!" : String).length = 1 := rfl
  rw [hone] at hlen
  omega

/-- C10: `Users.password` is the identity function, so composed with the
hash stub it yields `"!" ++ p`, which never equals `p`: the stub pair is
not a decode/encode round-trip. -/
theorem password_identity_not_roundtrip (s p : String) :
    Users.password s = s ∧
    Users.password (Users.generate_hashed_password p) = "!" ++ p ∧
    "!" ++ p ≠ p :=
  ⟨users_password_eq_id s,
   users_password_eq_id (Users.generate_hashed_password p),
   generate_hashed_password_ne p⟩

/-- C9: the model handed to the database by `create` stores
`generate_hashed_password raw_password`, which differs from the raw
password supplied in the payload. -/
theorem created_hashed_password_ne_raw (p : UserInputPayload) :
    (UserService.createModel p).hashed_password =
      some (Users.generate_hashed_password p.raw_password) ∧
    Users.generate_hashed_password p.raw_password ≠ p.raw_password ∧
    (UserService.createModel p).hashed_password ≠ some p.raw_password := by
  refine ⟨rfl, generate_hashed_password_ne p.raw_password, ?_⟩
  simp only [UserService.createModel, Option.some.injEq]
  exact fun h => generate_hashed_password_ne p.raw_password (by simpa using h)


/-- Characterization of `UserService.findOne`: one equation covering the
validation-failure, id-present and id-absent paths. -/
theorem findOne_eq (spd : SPDeps) (wh : SubscriptionPlanFilter) :
    UserService.findOne spd wh =
      match spd.validateFilter (some wh) with
      | some errs =>
        .error (ParseError (.validation errs)
          (ErrorGenerator.NotFound "Subscription Plan"))
      | none =>
        match wh.id with
        | some i =>
          match spd.dbFindOne { id := some i } with
          | some r => .ok r
          | none =>
            .error (.NotFound (ErrorGenerator.NotFound "Subscription Plan"))
        | none =>
          .error (.NotFound (ErrorGenerator.NotFound "Subscription Plan")) := by
  unfold UserService.findOne UserService.findOneBody catchReclassify
  cases spd.validateFilter (some wh) with
  | some errs => rfl
  | none =>
    cases wh.id with
    | some i => cases spd.dbFindOne { id := some i } <;> rfl
    | none => rfl

/-- C7: `findOne` resolves by id only — with a valid filter carrying an
id it returns exactly what the database finds for that id or fails
NotFound, and with no id it fails NotFound without any lookup; it never
returns an empty result. -/
theorem findOne_resolves_by_id_only (spd : SPDeps)
    (wh : SubscriptionPlanFilter)
    (hv : spd.validateFilter (some wh) = none) :
    (∀ i, wh.id = some i →
      UserService.findOne spd wh =
        match spd.dbFindOne { id := some i } with
        | some r => .ok r
        | none =>
          .error (.NotFound (ErrorGenerator.NotFound "Subscription Plan"))) ∧
    (wh.id = none →
      UserService.findOne spd wh =
        .error (.NotFound (ErrorGenerator.NotFound "Subscription Plan"))) ∧
    (∀ r, UserService.findOne spd wh = .ok r →
      ∃ i, wh.id = some i ∧ spd.dbFindOne { id := some i } = some r) := by
  rw [findOne_eq, hv]
  refine ⟨fun i hi => by rw [hi], fun hi => by rw [hi], fun r hr => ?_⟩
  cases hi : wh.id with
  | none => simp only [hi] at hr; cases hr
  | some i =>
    simp only [hi] at hr
    cases hd : spd.dbFindOne { id := some i } with
    | none => simp only [hd] at hr; cases hr
    | some q => simp only [hd] at hr; cases hr; exact ⟨i, rfl, hd⟩

/-- C7 witness at concrete oracles: the sample database finds nothing for
id `p1`, so `findOne` fails NotFound. -/
theorem findOne_resolves_by_id_only_witness :
    UserService.findOne sampleSPDeps { id := some "p1" } =
      .error (.NotFound (ErrorGenerator.NotFound "Subscription Plan")) :=
  (findOne_resolves_by_id_only sampleSPDeps { id := some "p1" } rfl).1 "p1" rfl

/-- Characterization of `UserService.findAll`: one equation covering the
validation-failure path, the three supported filter shapes, the
unsupported shapes, and the no-filter default. -/
theorem findAll_eq (spd : SPDeps) (wh : Option SubscriptionPlanFilter) :
    UserService.findAll spd wh =
      match spd.validateFilter wh with
      | some errs =>
        .error (ParseError (.validation errs)
          (ErrorGenerator.NotFound "Subscription Plan"))
      | none =>
        match wh with
        | some w =>
          match w.id, w.limit, w.skip with
          | some i, some l, some s =>
            UserService.findAllFinish
              (some (spd.dbFindAll { id := some i } l s), l, s)
          | none, some l, some s =>
            UserService.findAllFinish (some (spd.dbFindAll {} l s), l, s)
          | some i, _, _ =>
            UserService.findAllFinish
              (some (spd.dbFindAll { id := some i } 10 0), 10, 0)
          | none, _, _ =>
            .error (.NotFound (ErrorGenerator.NotFound "Subscription Plan"))
        | none =>
          UserService.findAllFinish (some (spd.dbFindAll {} 10 0), 10, 0) := by
  cases hval : spd.validateFilter wh with
  | some errs =>
    simp [UserService.findAll, UserService.findAllBody, catchReclassify, hval]
  | none =>
    cases wh with
    | none =>
      simp [UserService.findAll, UserService.findAllBody, catchReclassify,
        hval]
    | some w =>
      cases hid : w.id <;> cases hl : w.limit <;> cases hs : w.skip <;>
        simp [UserService.findAll, UserService.findAllBody, catchReclassify,
          UserService.findAllFinish, hval, hid, hl, hs]

/-- Every successful response built by `findAllFinish` satisfies
`has_more = true` exactly when `total > limit + skip` with the limit and
skip recorded in the response. -/
theorem findAllFinish_has_more
    (res : Option (List SubscriptionPlan × Nat) × Nat × Nat)
    (resp : SubscriptionPlanResponse)
    (h : UserService.findAllFinish res = .ok resp) :
    resp.page_info.has_more = true ↔
      resp.page_info.total > resp.page_info.limit + resp.page_info.skip := by
  obtain ⟨o, lim, skp⟩ := res
  cases o with
  | none => cases h
  | some p =>
    obtain ⟨edges, count⟩ := p
    unfold UserService.findAllFinish at h
    by_cases he : edges = []
    · simp [he] at h
    · simp only [he, ne_eq, not_false_eq_true, if_true] at h
      cases h
      simp

/-- C6: `findAll` with no filter queries the database with the default
pagination limit 10 and skip 0, and every successful response satisfies
`has_more = true` iff `total > limit + skip` for the limit and skip
actually used (the ones recorded in `page_info`). -/
theorem findAll_default_pagination_has_more (spd : SPDeps)
    (whOpt : Option SubscriptionPlanFilter)
    (hv : spd.validateFilter none = none) :
    UserService.findAll spd none =
      (if (spd.dbFindAll {} 10 0).1 ≠ [] then
        .ok { edges := (spd.dbFindAll {} 10 0).1
              page_info :=
                { total := (spd.dbFindAll {} 10 0).2
                  limit := 10
                  skip := 0
                  has_more := decide ((spd.dbFindAll {} 10 0).2 > 10 + 0) } }
      else .error (.NotFound (ErrorGenerator.NotFound "Subscription Plan"))) ∧
    ∀ resp, UserService.findAll spd whOpt = .ok resp →
      (resp.page_info.has_more = true ↔
        resp.page_info.total > resp.page_info.limit + resp.page_info.skip) := by
  constructor
  · rw [findAll_eq]
    simp only [hv]
    cases hq : spd.dbFindAll {} 10 0 with
    | mk edges count => simp [UserService.findAllFinish, hq]
  · intro resp h
    rw [findAll_eq] at h
    cases hval : spd.validateFilter whOpt with
    | some errs => simp only [hval] at h; cases h
    | none =>
      simp only [hval] at h
      cases whOpt with
      | none => exact findAllFinish_has_more _ _ h
      | some w =>
        cases hid : w.id <;> cases hl : w.limit <;> cases hs : w.skip <;>
          simp only [hid, hl, hs] at h <;>
          first
            | exact findAllFinish_has_more _ _ h
            | cases h

/-- C6 witness: over the sample database holding one record, `findAll()`
with no filter succeeds with limit 10, skip 0 and `has_more = false`. -/
theorem findAll_default_pagination_has_more_witness :
    UserService.findAll sampleSPDeps none =
      .ok { edges := [samplePlan]
            page_info :=
              { total := 1, limit := 10, skip := 0, has_more := false } } := by
  rw [(findAll_default_pagination_has_more sampleSPDeps none rfl).1]
  rfl

/-- For a present filter matching no supported shape (no id and not both
limit and skip), `findAll` throws NotFound whatever the database holds. -/
theorem findAll_unsupported_aux (spd : SPDeps) (w : SubscriptionPlanFilter)
    (hv : spd.validateFilter (some w) = none)
    (hid : w.id = none)
    (hls : w.limit = none ∨ w.skip = none) :
    UserService.findAll spd (some w) =
      .error (.NotFound (ErrorGenerator.NotFound "Subscription Plan")) := by
  rw [findAll_eq]
  simp only [hv, hid]
  cases hl : w.limit with
  | none => cases hs : w.skip <;> simp
  | some l =>
    cases hs : w.skip with
    | none => simp
    | some s =>
      rcases hls with h | h
      · rw [hl] at h; cases h
      · rw [hs] at h; cases h

/-- C1 counterexample: with oracles whose database holds one record and
whose validation passes, `findAll` on the present filter with only
`limit = 5` set does not load all records with default pagination — the
claimed `{edges, page_info}` response — but fails with
NotFound "Subscription Plan". -/
theorem findAll_unsupported_shape_counterexample :
    UserService.findAll sampleSPDeps (some { limit := some 5 }) =
      .error (.NotFound (ErrorGenerator.NotFound "Subscription Plan")) ∧
    UserService.findAll sampleSPDeps (some { limit := some 5 }) ≠
      .ok { edges := [samplePlan]
            page_info :=
              { total := 1, limit := 10, skip := 0, has_more := false } } :=
  ⟨rfl, fun h => Except.noConfusion h⟩

/-- C1 (amended): a `findAll` call whose filter is present but matches
none of the supported shapes — no id, and limit or skip absent — issues
no database query (its outcome is independent of `dbFindAll`) and fails
with NotFound "Subscription Plan" instead of returning records. -/
theorem findAll_unsupported_shape_not_found (spd : SPDeps)
    (w : SubscriptionPlanFilter)
    (hv : spd.validateFilter (some w) = none)
    (hid : w.id = none)
    (hls : w.limit = none ∨ w.skip = none) :
    UserService.findAll spd (some w) =
      .error (.NotFound (ErrorGenerator.NotFound "Subscription Plan")) ∧
    ∀ f, UserService.findAll { spd with dbFindAll := f } (some w) =
      UserService.findAll spd (some w) :=
  ⟨findAll_unsupported_aux spd w hv hid hls,
   fun f =>
    (findAll_unsupported_aux { spd with dbFindAll := f } w hv hid hls).trans
      (findAll_unsupported_aux spd w hv hid hls).symm⟩

/-- C1 witness: the amended statement instantiated at the sample oracles
and the filter with only `limit = 5` set. -/
theorem findAll_unsupported_shape_not_found_witness :
    UserService.findAll sampleSPDeps (some { limit := some 5 }) =
      .error (.NotFound (ErrorGenerator.NotFound "Subscription Plan")) ∧
    UserService.findAll
        { sampleSPDeps with dbFindAll := fun _ _ _ => ([], 0) }
        (some { limit := some 5 }) =
      UserService.findAll sampleSPDeps (some { limit := some 5 }) :=
  ⟨(findAll_unsupported_shape_not_found sampleSPDeps { limit := some 5 }
      rfl rfl (Or.inr rfl)).1,
   (findAll_unsupported_shape_not_found sampleSPDeps { limit := some 5 }
      rfl rfl (Or.inr rfl)).2 _⟩

/-- Characterization of `UserService.create`: one equation covering the
validation-failure, duplicate-email, inserted-with-id and
inserted-without-id paths. -/
theorem create_eq (ud : UserDeps) (p : UserInputPayload) :
    UserService.create ud p =
      match ud.validateCreate p with
      | some errs =>
        .error (ParseError (.validation errs)
          (ErrorGenerator.Duplicate "User"))
      | none =>
        match ud.dbFindOneUser { email := some p.email } with
        | some _ => .error (.Conflict (ErrorGenerator.Duplicate "User"))
        | none =>
          match (ud.dbCreateUser (UserService.createModel p)).id with
          | some i =>
            if i ≠ "" then .ok (ud.dbCreateUser (UserService.createModel p))
            else .error (.BadRequest (ErrorGenerator.UnableSave "User"))
          | none =>
            .error (.BadRequest (ErrorGenerator.UnableSave "User")) := by
  cases hval : ud.validateCreate p with
  | some errs =>
    simp [UserService.create, UserService.createBody, catchReclassify, hval]
  | none =>
    cases hf : ud.dbFindOneUser { email := some p.email } with
    | some u =>
      simp [UserService.create, UserService.createBody, catchReclassify,
        ParseError, hval, hf]
    | none =>
      cases hid : (ud.dbCreateUser (UserService.createModel p)).id with
      | some i =>
        simp [UserService.create, UserService.createBody, catchReclassify,
          hval, hf, hid]
      | none =>
        simp [UserService.create, UserService.createBody, catchReclassify,
          hval, hf, hid]

/-- C3: for a valid payload with a fresh email, `create` returns exactly
the inserted entity when its id is a non-empty string — so every success
carries a non-empty id — and fails with BadRequest(UnableSave "User")
when the inserted record comes back without a non-empty id. -/
theorem create_fresh_unique_key (ud : UserDeps) (p : UserInputPayload)
    (hv : ud.validateCreate p = none)
    (hf : ud.dbFindOneUser { email := some p.email } = none) :
    (∀ i, (ud.dbCreateUser (UserService.createModel p)).id = some i →
      i ≠ "" →
      UserService.create ud p =
        .ok (ud.dbCreateUser (UserService.createModel p))) ∧
    (∀ u, UserService.create ud p = .ok u →
      u = ud.dbCreateUser (UserService.createModel p) ∧
      ∃ i, u.id = some i ∧ i ≠ "") ∧
    ((ud.dbCreateUser (UserService.createModel p)).id = none ∨
     (ud.dbCreateUser (UserService.createModel p)).id = some "" →
      UserService.create ud p =
        .error (.BadRequest (ErrorGenerator.UnableSave "User"))) := by
  rw [create_eq]
  simp only [hv, hf]
  refine ⟨?_, ?_, ?_⟩
  · intro i hi hine
    simp [hi, hine]
  · intro u hu
    cases hid : (ud.dbCreateUser (UserService.createModel p)).id with
    | none => simp [hid] at hu
    | some i =>
      simp only [hid] at hu
      by_cases hie : i = ""
      · simp [hie] at hu
      · simp only [ne_eq, hie, not_false_eq_true, if_true,
          Except.ok.injEq] at hu
        refine ⟨hu.symm, i, ?_, hie⟩
        rw [← hu]
        exact hid
  · rintro (h | h) <;> simp [h]

/-- C3 witness: at the sample oracles (fresh email, database assigning id
`u1`), `create` succeeds with the inserted entity. -/
theorem create_fresh_unique_key_witness :
    UserService.create sampleUserDeps samplePayload =
      .ok (sampleUserDeps.dbCreateUser
        (UserService.createModel samplePayload)) :=
  (create_fresh_unique_key sampleUserDeps samplePayload rfl rfl).1
    "u1" rfl (by decide)

/-- C4: for a payload whose email the pre-insert query finds on an
existing record, `create` fails with Conflict(Duplicate "User") and the
outcome is independent of the database insert operation — no record is
inserted. -/
theorem create_duplicate_email_conflict (ud : UserDeps)
    (p : UserInputPayload) (u : Users)
    (hv : ud.validateCreate p = none)
    (hf : ud.dbFindOneUser { email := some p.email } = some u) :
    UserService.create ud p =
      .error (.Conflict (ErrorGenerator.Duplicate "User")) ∧
    ∀ f, UserService.create { ud with dbCreateUser := f } p =
      UserService.create ud p := by
  have key : ∀ vd : UserDeps, vd.validateCreate p = none →
      vd.dbFindOneUser { email := some p.email } = some u →
      UserService.create vd p =
        .error (.Conflict (ErrorGenerator.Duplicate "User")) := by
    intro vd h1 h2
    rw [create_eq]
    simp [h1, h2]
  exact ⟨key ud hv hf, fun f =>
    (key { ud with dbCreateUser := f } hv hf).trans (key ud hv hf).symm⟩

/-- C4 witness: at the sample oracles whose duplicate query finds an
existing user, `create` fails with Conflict(Duplicate "User"). -/
theorem create_duplicate_email_conflict_witness :
    UserService.create sampleUserDepsDup samplePayload =
      .error (.Conflict (ErrorGenerator.Duplicate "User")) :=
  (create_duplicate_email_conflict sampleUserDepsDup samplePayload
    { id := some "u0", email := some "ann@ex.com" } rfl rfl).1

/-- Characterization of `UserService.update`: one equation covering the
validation-failure, missing-id, slug-conflict and apply-update paths. -/
theorem update_eq (spd : SPDeps) (p : SubscriptionPlanUpdatePayload)
    (wh : SubscriptionPlanFilter) :
    UserService.update spd p wh =
      match spd.validateUpdate p wh with
      | some errs =>
        .error (ParseError (.validation errs)
          (ErrorGenerator.Duplicate "Subscription Plan"))
      | none =>
        match wh.id with
        | some i =>
          match spd.dbFindOne { slug := some (slugOf p.name) } with
          | some r =>
            if r.id ≠ some i then
              .error (.Conflict (ErrorGenerator.Duplicate "Subscription Plan"))
            else
              match spd.dbUpdate
                  { name := some p.name, slug := some (slugOf p.name) }
                  { id := some i } with
              | (edges, modified) =>
                if modified > 0 then
                  .ok { modified := modified, edges := edges }
                else
                  .error
                    (.NotFound (ErrorGenerator.NotFound "Subscription Plan"))
          | none =>
            match spd.dbUpdate
                { name := some p.name, slug := some (slugOf p.name) }
                { id := some i } with
            | (edges, modified) =>
              if modified > 0 then
                .ok { modified := modified, edges := edges }
              else
                .error
                  (.NotFound (ErrorGenerator.NotFound "Subscription Plan"))
        | none =>
          .error (.NotFound (ErrorGenerator.NotFound "Subscription Plan")) := by
  cases hval : spd.validateUpdate p wh with
  | some errs =>
    simp [UserService.update, UserService.updateBody, catchReclassify, hval]
  | none =>
    cases hid : wh.id with
    | none =>
      simp [UserService.update, UserService.updateBody, catchReclassify,
        hval, hid]
    | some i =>
      cases hfo : spd.dbFindOne { slug := some (slugOf p.name) } with
      | some r =>
        by_cases hne : r.id ≠ some i
        · simp [UserService.update, UserService.updateBody, catchReclassify,
            ParseError, hval, hid, hfo, hne]
        · cases hq : spd.dbUpdate
              { name := some p.name, slug := some (slugOf p.name) }
              { id := some i } with
          | mk edges modified =>
            simp [UserService.update, UserService.updateBody,
              catchReclassify, hval, hid, hfo, hne, hq]
      | none =>
        cases hq : spd.dbUpdate
            { name := some p.name, slug := some (slugOf p.name) }
            { id := some i } with
        | mk edges modified =>
          simp [UserService.update, UserService.updateBody, catchReclassify,
            hval, hid, hfo, hq]

/-- The post-try response building of `update`/`delete` applied to a
`[edges, modified]` pair never yields a Conflict error. -/
theorem modified_pair_ne_conflict (pr : List SubscriptionPlan × Nat)
    (m : ErrMsg) :
    (match pr with
     | (edges, modified) =>
       if modified > 0 then
         (.ok { modified := modified, edges := edges } :
           Except ServiceError UpdateSubscriptionPlanResponse)
       else
         .error (.NotFound (ErrorGenerator.NotFound "Subscription Plan"))) ≠
      .error (.Conflict m) := by
  obtain ⟨edges, modified⟩ := pr
  by_cases hm : modified > 0 <;> simp [hm]

/-- C5: with a valid merged payload and `filter.id` present, `update`
recomputes the slug from `payload.name` (lowercased, first space
hyphenated — `slugOf`) and fails with Conflict(Duplicate "Subscription
Plan") exactly when the record found for that slug has a different id;
when the only record with that slug is the target itself (or none), a
positive-modified update succeeds. -/
theorem update_slug_conflict_iff (spd : SPDeps)
    (p : SubscriptionPlanUpdatePayload) (wh : SubscriptionPlanFilter)
    (i : String)
    (hv : spd.validateUpdate p wh = none)
    (hi : wh.id = some i) :
    (UserService.update spd p wh =
        .error (.Conflict (ErrorGenerator.Duplicate "Subscription Plan")) ↔
      ∃ r, spd.dbFindOne { slug := some (slugOf p.name) } = some r ∧
        r.id ≠ some i) ∧
    ((∀ r, spd.dbFindOne { slug := some (slugOf p.name) } = some r →
        r.id = some i) →
      0 < (spd.dbUpdate
          { name := some p.name, slug := some (slugOf p.name) }
          { id := some i }).2 →
      UserService.update spd p wh =
        .ok { modified := (spd.dbUpdate
                { name := some p.name, slug := some (slugOf p.name) }
                { id := some i }).2
              edges := (spd.dbUpdate
                { name := some p.name, slug := some (slugOf p.name) }
                { id := some i }).1 }) := by
  rw [update_eq]
  simp only [hv, hi]
  constructor
  · cases hfo : spd.dbFindOne { slug := some (slugOf p.name) } with
    | none =>
      simp only [hfo]
      constructor
      · intro h
        exact absurd h (modified_pair_ne_conflict _ _)
      · rintro ⟨r, hr, -⟩
        cases hr
    | some r =>
      simp only [hfo]
      by_cases hne : r.id ≠ some i
      · rw [if_pos hne]
        exact ⟨fun _ => ⟨r, rfl, hne⟩, fun _ => rfl⟩
      · rw [if_neg hne]
        constructor
        · intro h
          exact absurd h (modified_pair_ne_conflict _ _)
        · rintro ⟨q, hq, hqe⟩
          cases hq
          exact absurd hqe hne
  · intro hno hm
    cases hfo : spd.dbFindOne { slug := some (slugOf p.name) } with
    | none =>
      simp only [hfo]
      cases hq : spd.dbUpdate
          { name := some p.name, slug := some (slugOf p.name) }
          { id := some i } with
      | mk edges modified =>
        rw [hq] at hm
        simp [hm, hq]
    | some r =>
      have hre : r.id = some i := hno r hfo
      simp only [hfo, hre, ne_eq, not_true_eq_false, if_false]
      cases hq : spd.dbUpdate
          { name := some p.name, slug := some (slugOf p.name) }
          { id := some i } with
      | mk edges modified =>
        rw [hq] at hm
        simp [hm, hq]

/-- C5 witness: with the sample oracles (no record holds the slug
`pro-plan`, one row modified), updating id `p1` to name `Pro Plan`
succeeds. -/
theorem update_slug_conflict_iff_witness :
    UserService.update sampleSPDeps { name := "Pro Plan" }
        { id := some "p1" } =
      .ok { modified := 1, edges := [samplePlan] } :=
  (update_slug_conflict_iff sampleSPDeps { name := "Pro Plan" }
      { id := some "p1" } "p1" rfl rfl).2
    (fun _ hr => Option.noConfusion hr) (by decide)

/-- Characterization of `UserService.delete`: one equation covering the
validation-failure, missing-id and delete paths. -/
theorem delete_eq (spd : SPDeps) (wh : SubscriptionPlanFilter) :
    UserService.delete spd wh =
      match spd.validateFilter (some wh) with
      | some errs =>
        .error (ParseError (.validation errs)
          (ErrorGenerator.UnableToDelete "Subscription Plan"))
      | none =>
        match wh.id with
        | some i =>
          match spd.dbDelete { id := some i } with
          | (edges, modified) =>
            if modified > 0 then
              .ok { modified := modified, edges := edges }
            else
              .error (.NotFound (ErrorGenerator.NotFound "Subscription Plan"))
        | none =>
          .error (.NotFound (ErrorGenerator.NotFound "Subscription Plan")) := by
  cases hval : spd.validateFilter (some wh) with
  | some errs =>
    simp [UserService.delete, UserService.deleteBody, catchReclassify, hval]
  | none =>
    cases hid : wh.id with
    | none =>
      simp [UserService.delete, UserService.deleteBody, catchReclassify,
        hval, hid]
    | some i =>
      cases hq : spd.dbDelete { id := some i } with
      | mk edges modified =>
        simp [UserService.delete, UserService.deleteBody, catchReclassify,
          hval, hid, hq]

/-- Every successful `update` carries `modified > 0`. -/
theorem update_ok_modified_pos (spd : SPDeps)
    (p : SubscriptionPlanUpdatePayload) (wh : SubscriptionPlanFilter)
    (resp : UpdateSubscriptionPlanResponse)
    (h : UserService.update spd p wh = .ok resp) : 0 < resp.modified := by
  rw [update_eq] at h
  cases hval : spd.validateUpdate p wh with
  | some errs => simp only [hval] at h; cases h
  | none =>
    simp only [hval] at h
    cases hid : wh.id with
    | none => simp only [hid] at h; cases h
    | some i =>
      simp only [hid] at h
      have key : ∀ pr : List SubscriptionPlan × Nat,
          (if pr.2 > 0 then
             (.ok { modified := pr.2, edges := pr.1 } :
               Except ServiceError UpdateSubscriptionPlanResponse)
           else
             .error
               (.NotFound (ErrorGenerator.NotFound "Subscription Plan"))) =
            .ok resp → 0 < resp.modified := by
        intro pr hpr
        by_cases hm : pr.2 > 0
        · rw [if_pos hm] at hpr
          cases hpr
          exact hm
        · rw [if_neg hm] at hpr
          cases hpr
      cases hfo : spd.dbFindOne { slug := some (slugOf p.name) } with
      | none =>
        simp only [hfo] at h
        exact key _ h
      | some r =>
        simp only [hfo] at h
        by_cases hne : r.id ≠ some i
        · rw [if_pos hne] at h
          cases h
        · rw [if_neg hne] at h
          exact key _ h

/-- Every successful `delete` carries `modified > 0`. -/
theorem delete_ok_modified_pos (spd : SPDeps) (wh : SubscriptionPlanFilter)
    (resp : DeleteSubscriptionPlanResponse)
    (h : UserService.delete spd wh = .ok resp) : 0 < resp.modified := by
  rw [delete_eq] at h
  cases hval : spd.validateFilter (some wh) with
  | some errs => simp only [hval] at h; cases h
  | none =>
    simp only [hval] at h
    cases hid : wh.id with
    | none => simp only [hid] at h; cases h
    | some i =>
      simp only [hid] at h
      cases hq : spd.dbDelete { id := some i } with
      | mk edges modified =>
        simp only [hq] at h
        by_cases hm : modified > 0
        · rw [if_pos hm] at h
          cases h
          exact hm
        · rw [if_neg hm] at h
          cases h

/-- C8: with valid input and `filter.id` present, when the database
reports zero modified rows `update` and `delete` fail with
NotFound "Subscription Plan" (for update, provided no foreign record
holds the recomputed slug); and every successful `update` or `delete`
returns `{modified, edges}` with `modified > 0`. -/
theorem zero_modified_fails_not_found (spd : SPDeps)
    (p : SubscriptionPlanUpdatePayload) (wh : SubscriptionPlanFilter)
    (i : String)
    (hi : wh.id = some i)
    (hvu : spd.validateUpdate p wh = none)
    (hvf : spd.validateFilter (some wh) = none)
    (hnc : ∀ r, spd.dbFindOne { slug := some (slugOf p.name) } = some r →
      r.id = some i) :
    ((spd.dbUpdate { name := some p.name, slug := some (slugOf p.name) }
        { id := some i }).2 = 0 →
      UserService.update spd p wh =
        .error (.NotFound (ErrorGenerator.NotFound "Subscription Plan"))) ∧
    ((spd.dbDelete { id := some i }).2 = 0 →
      UserService.delete spd wh =
        .error (.NotFound (ErrorGenerator.NotFound "Subscription Plan"))) ∧
    (∀ resp, UserService.update spd p wh = .ok resp → 0 < resp.modified) ∧
    (∀ resp, UserService.delete spd wh = .ok resp → 0 < resp.modified) := by
  refine ⟨?_, ?_, fun resp h => update_ok_modified_pos spd p wh resp h,
    fun resp h => delete_ok_modified_pos spd wh resp h⟩
  · intro hm
    rw [update_eq]
    simp only [hvu, hi]
    cases hfo : spd.dbFindOne { slug := some (slugOf p.name) } with
    | none =>
      simp only [hfo]
      cases hq : spd.dbUpdate
          { name := some p.name, slug := some (slugOf p.name) }
          { id := some i } with
      | mk edges modified =>
        simp only [hq] at hm ⊢
        simp [hm]
    | some r =>
      have hre : r.id = some i := hnc r hfo
      simp only [hfo]
      rw [if_neg (by simp [hre])]
      cases hq : spd.dbUpdate
          { name := some p.name, slug := some (slugOf p.name) }
          { id := some i } with
      | mk edges modified =>
        simp only [hq] at hm ⊢
        simp [hm]
  · intro hm
    rw [delete_eq]
    simp only [hvf, hi]
    cases hq : spd.dbDelete { id := some i } with
    | mk edges modified =>
      simp only [hq] at hm ⊢
      simp [hm]

/-- C8 witness: with the sample zero-modified oracles, `update` and
`delete` on id `p1` both fail NotFound. -/
theorem zero_modified_fails_not_found_witness :
    UserService.update sampleSPDepsZero { name := "Pro Plan" }
        { id := some "p1" } =
      .error (.NotFound (ErrorGenerator.NotFound "Subscription Plan")) ∧
    UserService.delete sampleSPDepsZero { id := some "p1" } =
      .error (.NotFound (ErrorGenerator.NotFound "Subscription Plan")) :=
  ⟨(zero_modified_fails_not_found sampleSPDepsZero { name := "Pro Plan" }
      { id := some "p1" } "p1" rfl rfl rfl
      (fun _ hr => Option.noConfusion hr)).1 rfl,
   (zero_modified_fails_not_found sampleSPDepsZero { name := "Pro Plan" }
      { id := some "p1" } "p1" rfl rfl rfl
      (fun _ hr => Option.noConfusion hr)).2.1 rfl⟩

/-- Every error produced by `findOne` carries the resource
"Subscription Plan". -/
theorem findOne_error_resource (spd : SPDeps) (wh : SubscriptionPlanFilter)
    (e : ServiceError) (h : UserService.findOne spd wh = .error e) :
    e.resource = "Subscription Plan" := by
  rw [findOne_eq] at h
  cases hval : spd.validateFilter (some wh) with
  | some errs =>
    simp only [hval, Except.error.injEq] at h
    subst h
    rfl
  | none =>
    simp only [hval] at h
    cases hid : wh.id with
    | none =>
      simp only [hid, Except.error.injEq] at h
      subst h
      rfl
    | some i =>
      simp only [hid] at h
      cases hfo : spd.dbFindOne { id := some i } with
      | some r => simp only [hfo] at h; cases h
      | none =>
        simp only [hfo, Except.error.injEq] at h
        subst h
        rfl

/-- Every error produced by the response building of `findAll` carries
the resource "Subscription Plan". -/
theorem findAllFinish_error_resource
    (res : Option (List SubscriptionPlan × Nat) × Nat × Nat)
    (e : ServiceError) (h : UserService.findAllFinish res = .error e) :
    e.resource = "Subscription Plan" := by
  obtain ⟨o, lim, skp⟩ := res
  cases o with
  | none =>
    simp only [UserService.findAllFinish, Except.error.injEq] at h
    subst h
    rfl
  | some pr =>
    obtain ⟨edges, count⟩ := pr
    by_cases he : edges = []
    · have hv : UserService.findAllFinish (some (edges, count), lim, skp) =
          .error (.NotFound (ErrorGenerator.NotFound "Subscription Plan")) := by
        simp [UserService.findAllFinish, he]
      rw [hv] at h
      simp only [Except.error.injEq] at h
      subst h
      rfl
    · have hv : UserService.findAllFinish (some (edges, count), lim, skp) =
          .ok { edges := edges
                page_info :=
                  { total := count, limit := lim, skip := skp
                    has_more := decide (count > lim + skp) } } := by
        simp [UserService.findAllFinish, he]
      rw [hv] at h
      cases h

/-- Every error produced by `findAll` carries the resource
"Subscription Plan". -/
theorem findAll_error_resource (spd : SPDeps)
    (whOpt : Option SubscriptionPlanFilter) (e : ServiceError)
    (h : UserService.findAll spd whOpt = .error e) :
    e.resource = "Subscription Plan" := by
  rw [findAll_eq] at h
  cases hval : spd.validateFilter whOpt with
  | some errs =>
    simp only [hval, Except.error.injEq] at h
    subst h
    rfl
  | none =>
    simp only [hval] at h
    cases whOpt with
    | none => exact findAllFinish_error_resource _ e h
    | some w =>
      cases hid : w.id <;> cases hl : w.limit <;> cases hs : w.skip <;>
        simp only [hid, hl, hs] at h <;>
        first
          | exact findAllFinish_error_resource _ e h
          | (simp only [Except.error.injEq] at h; subst h; rfl)

/-- Every error produced by `update` carries the resource
"Subscription Plan". -/
theorem update_error_resource (spd : SPDeps)
    (p : SubscriptionPlanUpdatePayload) (wh : SubscriptionPlanFilter)
    (e : ServiceError) (h : UserService.update spd p wh = .error e) :
    e.resource = "Subscription Plan" := by
  rw [update_eq] at h
  cases hval : spd.validateUpdate p wh with
  | some errs =>
    simp only [hval, Except.error.injEq] at h
    subst h
    rfl
  | none =>
    simp only [hval] at h
    cases hid : wh.id with
    | none =>
      simp only [hid, Except.error.injEq] at h
      subst h
      rfl
    | some i =>
      simp only [hid] at h
      have key : ∀ pr : List SubscriptionPlan × Nat,
          (if pr.2 > 0 then
             (.ok { modified := pr.2, edges := pr.1 } :
               Except ServiceError UpdateSubscriptionPlanResponse)
           else
             .error
               (.NotFound (ErrorGenerator.NotFound "Subscription Plan"))) =
            .error e → e.resource = "Subscription Plan" := by
        intro pr hpr
        by_cases hm : pr.2 > 0
        · rw [if_pos hm] at hpr
          cases hpr
        · rw [if_neg hm] at hpr
          simp only [Except.error.injEq] at hpr
          subst hpr
          rfl
      cases hfo : spd.dbFindOne { slug := some (slugOf p.name) } with
      | none =>
        simp only [hfo] at h
        exact key _ h
      | some r =>
        simp only [hfo] at h
        by_cases hne : r.id ≠ some i
        · rw [if_pos hne] at h
          simp only [Except.error.injEq] at h
          subst h
          rfl
        · rw [if_neg hne] at h
          exact key _ h

/-- Every error produced by `delete` carries the resource
"Subscription Plan". -/
theorem delete_error_resource (spd : SPDeps) (wh : SubscriptionPlanFilter)
    (e : ServiceError) (h : UserService.delete spd wh = .error e) :
    e.resource = "Subscription Plan" := by
  rw [delete_eq] at h
  cases hval : spd.validateFilter (some wh) with
  | some errs =>
    simp only [hval, Except.error.injEq] at h
    subst h
    rfl
  | none =>
    simp only [hval] at h
    cases hid : wh.id with
    | none =>
      simp only [hid, Except.error.injEq] at h
      subst h
      rfl
    | some i =>
      simp only [hid] at h
      cases hq : spd.dbDelete { id := some i } with
      | mk edges modified =>
        simp only [hq] at h
        by_cases hm : modified > 0
        · rw [if_pos hm] at h
          cases h
        · rw [if_neg hm] at h
          simp only [Except.error.injEq] at h
          subst h
          rfl

/-- Every error produced by `create` carries the resource "User". -/
theorem create_error_resource (ud : UserDeps) (p : UserInputPayload)
    (e : ServiceError) (h : UserService.create ud p = .error e) :
    e.resource = "User" := by
  rw [create_eq] at h
  cases hval : ud.validateCreate p with
  | some errs =>
    simp only [hval, Except.error.injEq] at h
    subst h
    rfl
  | none =>
    simp only [hval] at h
    cases hf : ud.dbFindOneUser { email := some p.email } with
    | some u =>
      simp only [hf, Except.error.injEq] at h
      subst h
      rfl
    | none =>
      simp only [hf] at h
      cases hid : (ud.dbCreateUser (UserService.createModel p)).id with
      | none =>
        simp only [hid, Except.error.injEq] at h
        subst h
        rfl
      | some i =>
        simp only [hid] at h
        by_cases hie : i ≠ ""
        · rw [if_pos hie] at h
          cases h
        · rw [if_neg hie] at h
          simp only [Except.error.injEq] at h
          subst h
          rfl

/-- C2: whatever the oracles and inputs, every error thrown by the four
copy-pasted methods `findOne`, `findAll`, `update` and `delete` of
`UserService` names the resource "Subscription Plan" and never "User",
while every error thrown by `create` names "User". -/
theorem copied_methods_errors_name_subscription_plan (spd : SPDeps)
    (ud : UserDeps) (wh : SubscriptionPlanFilter)
    (whOpt : Option SubscriptionPlanFilter)
    (up : SubscriptionPlanUpdatePayload) (cp : UserInputPayload)
    (e : ServiceError) :
    ((UserService.findOne spd wh = .error e ∨
      UserService.findAll spd whOpt = .error e ∨
      UserService.update spd up wh = .error e ∨
      UserService.delete spd wh = .error e) →
      e.resource = "Subscription Plan" ∧ e.resource ≠ "User") ∧
    (UserService.create ud cp = .error e → e.resource = "User") := by
  constructor
  · intro h
    have hsp : e.resource = "Subscription Plan" := by
      rcases h with h | h | h | h
      · exact findOne_error_resource spd wh e h
      · exact findAll_error_resource spd whOpt e h
      · exact update_error_resource spd up wh e h
      · exact delete_error_resource spd wh e h
    refine ⟨hsp, ?_⟩
    rw [hsp]
    decide
  · exact create_error_resource ud cp e

/-- C2 witness: `findOne` with an id-less filter over the sample oracles
errors with a message naming "Subscription Plan", not "User". -/
theorem copied_methods_errors_name_subscription_plan_witness :
    (ServiceError.NotFound
        (ErrorGenerator.NotFound "Subscription Plan")).resource =
      "Subscription Plan" ∧
    (ServiceError.NotFound
        (ErrorGenerator.NotFound "Subscription Plan")).resource ≠ "User" :=
  (copied_methods_errors_name_subscription_plan sampleSPDeps sampleUserDeps
      {} none { name := "Pro Plan" } samplePayload
      (.NotFound (ErrorGenerator.NotFound "Subscription Plan"))).1
    (Or.inl rfl)
